import Mathlib

/-!
Verification of the retail-analytics anomaly-detection and customer-segmentation
core (anomaly_detector.py, customer_segmentation.py).

Modelling conventions.

* Tables are lists of typed `Transaction` records; the pandas row index is the
  list position.
* Money, quantities and statistics live in `ℚ`.  Timestamps are seconds since
  the epoch, in `ℤ`; pandas `.dt.hour`, `.dt.dayofweek`, `.dt.minute` and
  timedelta `.days` are floor-based and are modelled with `Int.ediv`/`Int.emod`
  (identical to floor for the positive divisors used here).
* Z-scores are `|x - mean| / std` where `std` is the pandas sample standard
  deviation (`ddof = 1`), an irrational square root.  All comparisons and
  reported scores are therefore carried as their squares: the map `y ↦ y ^ 2`
  is strictly monotone on the nonnegative reals, so `|z| > 3` becomes
  `zSq > 9`, the combined-method constant score `0.8` becomes `16 / 25`,
  and `score = 1.0` becomes `scoreSq = 1`.  `sampleVar xs = 0` encodes
  both `std == 0` and the `NaN` std of a 0/1-element column, for which the
  sources guard `std > 0` evaluates false.
* `sklearn` model fits (IsolationForest, StandardScaler + KMeans) are external
  library calls, not code of this repository; they are abstracted as oracle
  parameters.  Every guard, union, score assignment and error path around
  them is translated from the source.
* Python exceptions are `Except String`; a caught-and-converted exception is a
  matched `.error`.
* `sort_values` reorderings of result rows are kept via a stable insertion
  sort on the score; pandas uses an unstable quicksort, so the order among
  tied scores is unspecified in the source and immaterial to every claim
  (all claims are about the flagged index set and per-row scores).
-/

/-- A transaction record, one row of the input table
(data model of the data generator / spec section 3). -/
structure Transaction where
  transaction_id : String
  timestamp : Int
  store_id : String
  product_name : String
  category : String
  unit_price : ℚ
  quantity : ℚ
  subtotal : ℚ
  tax_amount : ℚ
  total_amount : ℚ
  payment_method : String
  customer_id : String
deriving DecidableEq, Repr

/-- Hour component of a timestamp (pandas `.dt.hour`). -/
def hourOfTs (ts : Int) : Int := Int.ediv (Int.emod ts 86400) 3600

/-- Minute component of a timestamp (pandas `.dt.minute`). -/
def minuteOfTs (ts : Int) : Int := Int.ediv (Int.emod ts 3600) 60

/-- Day of week of a timestamp, Monday = 0 (pandas `.dt.dayofweek`;
epoch day 0 was a Thursday, hence the offset 3). -/
def dayOfWeekOfTs (ts : Int) : Int := Int.emod (Int.ediv ts 86400 + 3) 7

/-- Column mean (pandas `.mean()`); 0 stands for the NaN of an empty column,
which every comparison in the sources treats as false. -/
def mean (xs : List ℚ) : ℚ :=
  if xs.length = 0 then 0 else xs.sum / (xs.length : ℚ)

/-- Square of the pandas sample standard deviation (`.std()`, `ddof = 1`),
i.e. the sample variance.  For columns of length 0 or 1 pandas yields NaN;
0 is used here, which makes the sources' `std > 0` guards evaluate false
exactly as NaN does. -/
def sampleVar (xs : List ℚ) : ℚ :=
  if xs.length ≤ 1 then 0
  else ((xs.map (fun x => (x - mean xs) ^ 2)).sum) / ((xs.length : ℚ) - 1)

/-- Linear-interpolation quantile of a sorted nonempty list
(pandas `.quantile(q)` default interpolation). -/
def quantileSorted (s : List ℚ) (q : ℚ) : ℚ :=
  let pos : ℚ := q * ((s.length : ℚ) - 1)
  let i : Nat := (⌊pos⌋).toNat
  let lo := s.getD i 0
  let hi := s.getD (i + 1) lo
  lo + (pos - (i : ℚ)) * (hi - lo)

/-- Pandas `.quantile(q)` of a column; 0 stands for the NaN of an empty
column, which every comparison in the sources treats as false. -/
def quantile (xs : List ℚ) (q : ℚ) : ℚ :=
  if xs.length = 0 then 0
  else quantileSorted (List.insertionSort (· ≤ ·) xs) q

/-- Column of total amounts. -/
def amountList (data : List Transaction) : List ℚ := data.map (·.total_amount)

/-- Column of quantities. -/
def qtyList (data : List Transaction) : List ℚ := data.map (·.quantity)

/-- Column of transaction hours. -/
def hourList (data : List Transaction) : List Int :=
  data.map (fun t => hourOfTs t.timestamp)

/-- Z-score rule of `_statistical_detection`: guarded by `std > 0`, flags
`|x - mean| / std > 3`, stated on squares. -/
def zFlag (xs : List ℚ) (x : ℚ) : Bool :=
  decide (0 < sampleVar xs) && decide (9 * sampleVar xs < (x - mean xs) ^ 2)

/-- IQR rule of `_statistical_detection`: guarded by `IQR > 0`, flags values
below `Q1 - 3 IQR` or above `Q3 + 3 IQR`. -/
def iqrFlag (xs : List ℚ) (x : ℚ) : Bool :=
  let q1 := quantile xs (1 / 4)
  let q3 := quantile xs (3 / 4)
  let iqr := q3 - q1
  decide (0 < iqr) && (decide (x < q1 - 3 * iqr) || decide (q3 + 3 * iqr < x))

/-- Time-of-day rule of `_statistical_detection`: flags hours before 6 AM or
after 11 PM. -/
def timeFlag (h : Int) : Bool := decide (h < 6) || decide (23 < h)

/-- Whether row `i` lands in the union of the four statistical rules
(`_statistical_detection`, the union of the collected index sets). -/
def statFlagged (data : List Transaction) (i : Nat) : Bool :=
  zFlag (amountList data) ((amountList data).getD i 0)
  || iqrFlag (amountList data) ((amountList data).getD i 0)
  || zFlag (qtyList data) ((qtyList data).getD i 0)
  || timeFlag ((hourList data).getD i 0)

/-- The flagged row indices of `_statistical_detection`. -/
def statisticalIndices (data : List Transaction) : List Nat :=
  (List.range data.length).filter (fun i => statFlagged data i)

/-- Square of the amount z-score of row `i` (the `amount_zscore` column). -/
def amountZSq (data : List Transaction) (i : Nat) : ℚ :=
  ((amountList data).getD i 0 - mean (amountList data)) ^ 2
    / sampleVar (amountList data)

/-- Square of the anomaly score `_statistical_detection` assigns to a flagged
row: the `amount_zscore` column exists on the frame iff the amount std was
positive, and in that case it is used for every flagged row; otherwise the
score defaults to 1.0. -/
def statScoreSq (data : List Transaction) (i : Nat) : ℚ :=
  if 0 < sampleVar (amountList data) then amountZSq data i else 1

/-- Result of `_statistical_detection`: flagged rows as
(index, squared anomaly score), sorted by score descending
(`sort_values('anomaly_score', ascending=False)`). -/
def statisticalDetection (data : List Transaction) : List (Nat × ℚ) :=
  List.insertionSort (fun a b => b.2 ≤ a.2)
    ((statisticalIndices data).map (fun i => (i, statScoreSq data i)))

/-- One row of the numeric feature table built by `_prepare_features`:
the selected numerical columns, the time-derived columns, and the one-hot
indicator groups for category / store / payment method.  A group whose
distinct-value count exceeds its cap is absent, modelled by `[]`.  The
`replace(inf, nan)` / `fillna(median)` steps are identities on this typed
table (no NaN or infinity inhabits `ℚ`). -/
structure FeatureRow where
  total_amount : ℚ
  quantity : ℚ
  unit_price : ℚ
  subtotal : ℚ
  tax_amount : ℚ
  hour : Int
  day_of_week : Int
  minute : Int
  cat_flags : List Bool
  store_flags : List Bool
  pay_flags : List Bool
deriving DecidableEq, Repr

/-- Indicator vector of `v` against the distinct values `vals`
(one row of `pd.get_dummies`; column order is first occurrence rather than
the sorted order pandas uses, which no claim observes). -/
def oneHot (vals : List String) (v : String) : List Bool :=
  vals.map (fun w => v = w)

/-- `_prepare_features`: one feature row per transaction.  The source wraps
the body in try/except returning an empty frame; on this typed table the
body is total, so the except path is unreachable. -/
def prepare_features (data : List Transaction) : List FeatureRow :=
  let cats := (data.map (·.category)).dedup
  let stores := (data.map (·.store_id)).dedup
  let pays := (data.map (·.payment_method)).dedup
  data.map (fun t =>
    { total_amount := t.total_amount
      quantity := t.quantity
      unit_price := t.unit_price
      subtotal := t.subtotal
      tax_amount := t.tax_amount
      hour := hourOfTs t.timestamp
      day_of_week := dayOfWeekOfTs t.timestamp
      minute := minuteOfTs t.timestamp
      cat_flags := if cats.length ≤ 10 then oneHot cats t.category else []
      store_flags := if stores.length ≤ 20 then oneHot stores t.store_id else []
      pay_flags := if pays.length ≤ 10 then oneHot pays t.payment_method else [] })

/-- `_isolation_forest_detection`: below 10 rows the method returns an empty
frame; otherwise the scaled features are handed to the sklearn
IsolationForest, abstracted as `oracle` (fitting, `decision_function`
scores, and the final descending sort all happen inside the model call). -/
def isolation_forest_detection (oracle : List FeatureRow → List (Nat × ℚ))
    (features : List FeatureRow) : List (Nat × ℚ) :=
  if features.length < 10 then [] else oracle features

/-- `detect_anomalies`: empty-data and empty-features short circuits, method
dispatch, the combined union with its constant score 0.8 (its square 16/25
here), and the ValueError on an unsupported method name. -/
def detect_anomalies (oracle : List FeatureRow → List (Nat × ℚ))
    (data : List Transaction) (method : String) :
    Except String (List (Nat × ℚ)) :=
  if data = [] then .ok []
  else
    let features := prepare_features data
    if features = [] then .ok []
    else if method = "isolation_forest" then
      .ok (isolation_forest_detection oracle features)
    else if method = "statistical" then
      .ok (statisticalDetection data)
    else if method = "combined" then
      let iso := isolation_forest_detection oracle features
      let stat := statisticalDetection data
      let combinedIdx := ((iso.map Prod.fst) ++ (stat.map Prod.fst)).dedup
      .ok (combinedIdx.map (fun i => (i, (16 / 25 : ℚ))))
    else
      .error "Method must be one of isolation_forest, statistical, combined"

/-- Extracts the rows of a batch-detection result, the empty frame for a
raised error (used only to state set-level facts about results). -/
def resultPairs : Except String (List (Nat × ℚ)) → List (Nat × ℚ)
  | .ok l => l
  | .error _ => []

/-- Rounding to 2 decimals, half to even (numpy / pandas `.round(2)`).
Recency and frequency are integers, so only the monetary sum is affected. -/
def round2 (x : ℚ) : ℚ :=
  let y := x * 100
  let f := ⌊y⌋
  let r := y - (f : ℚ)
  let n : Int :=
    if r < 1 / 2 then f
    else if 1 / 2 < r then f + 1
    else if Int.emod f 2 = 0 then f else f + 1
  (n : ℚ) / 100

/-- Maximum of a list of timestamps (pandas `.max()` on a nonempty column;
the `[]` case is unreachable wherever this is used). -/
def listMaxInt : List Int → Int
  | [] => 0
  | [x] => x
  | x :: y :: t => max x (listMaxInt (y :: t))

/-- Pandas `Series.rank(method='first')`: 1-based rank in ascending order,
ties broken by position. -/
def rankFirst (xs : List ℚ) : List ℚ :=
  (List.range xs.length).map (fun i =>
    (1 : ℚ) + (((List.range xs.length).filter (fun j =>
      xs.getD j 0 < xs.getD i 0 ∨ (xs.getD j 0 = xs.getD i 0 ∧ j < i))).length : ℚ))

/-- Bin index of `v` against the deduplicated sorted edges of `pd.cut`
(right-closed bins, lowest included): the number of interior edges
strictly below `v`. -/
def binOf (edges : List ℚ) (v : ℚ) : Nat :=
  ((edges.drop 1).takeWhile (fun e => decide (e < v))).length

/-- `pd.qcut(xs, n, labels, duplicates='drop')`: quantile edges at
`k / n`, duplicate edges dropped; pandas then demands exactly one label per
remaining bin and raises a ValueError otherwise — with a dropped bin the
supplied label list no longer matches and the call fails. -/
def qcut (xs : List ℚ) (n : Nat) (labels : List Nat) :
    Except String (List Nat) :=
  let edges := ((List.range (n + 1)).map
    (fun k => quantile xs ((k : ℚ) / (n : ℚ)))).dedup
  if labels.length = edges.length - 1 then
    .ok (xs.map (fun v => labels.getD (binOf edges v) 0))
  else
    .error "Bin labels must be one fewer than the number of bin edges"

/-- The dataset-wide maximum timestamp (`current_date` in
`calculate_rfm_metrics`). -/
def currentDate (data : List Transaction) : Int :=
  listMaxInt (data.map (·.timestamp))

/-- The transactions of one customer (one `groupby('customer_id')` group;
group keys are taken in first-occurrence order, which no claim observes). -/
def custTxs (data : List Transaction) (cid : String) : List Transaction :=
  data.filter (fun t => t.customer_id = cid)

/-- The latest transaction timestamp of one customer. -/
def customerMaxTs (data : List Transaction) (cid : String) : Int :=
  listMaxInt ((custTxs data cid).map (·.timestamp))

/-- Recency of one customer: `(current_date - x.max()).days`, the floor of
the timestamp difference in days. -/
def recencyOf (data : List Transaction) (cid : String) : Int :=
  Int.ediv (currentDate data - customerMaxTs data cid) 86400

/-- Frequency of one customer: the `transaction_id` count of the group. -/
def frequencyOf (data : List Transaction) (cid : String) : Nat :=
  (custTxs data cid).length

/-- Monetary value of one customer: the rounded `total_amount` sum of the
group. -/
def monetaryOf (data : List Transaction) (cid : String) : ℚ :=
  round2 (((custTxs data cid).map (·.total_amount)).sum)

/-- The distinct customer identifiers (the `groupby` keys). -/
def customers (data : List Transaction) : List String :=
  (data.map (·.customer_id)).dedup

/-- The aggregated `recency`/`frequency`/`monetary` block of
`calculate_rfm_metrics`, one entry per customer. -/
structure RFMBase where
  customer_id : String
  recency : Int
  frequency : Nat
  monetary : ℚ
deriving DecidableEq, Repr

/-- The RFM aggregation, before quantile scoring. -/
def rfmBase (data : List Transaction) : List RFMBase :=
  (customers data).map (fun c =>
    ⟨c, recencyOf data c, frequencyOf data c, monetaryOf data c⟩)

/-- One output row of `calculate_rfm_metrics`. -/
structure RFMRow where
  customer_id : String
  recency : Int
  frequency : Nat
  monetary : ℚ
  recency_score : Nat
  frequency_score : Nat
  monetary_score : Nat
  rfm_score : String
deriving DecidableEq, Repr

/-- `calculate_rfm_metrics`: empty frame on empty input, the RFM groupby
aggregation, then the three `pd.qcut` scorings (recency labelled 5..1,
frequency on first-ranks and monetary labelled 1..5) and the concatenated
score string.  A qcut ValueError propagates to the caller (the source has
no try/except here). -/
def calculate_rfm_metrics (data : List Transaction) :
    Except String (List RFMRow) :=
  if data = [] then .ok []
  else
    let base := rfmBase data
    match qcut (base.map (fun b => (b.recency : ℚ))) 5 [5, 4, 3, 2, 1] with
    | .error e => .error e
    | .ok rs =>
      match qcut (rankFirst (base.map (fun b => (b.frequency : ℚ)))) 5
          [1, 2, 3, 4, 5] with
      | .error e => .error e
      | .ok fs =>
        match qcut (base.map (·.monetary)) 5 [1, 2, 3, 4, 5] with
        | .error e => .error e
        | .ok ms =>
          .ok ((List.range base.length).map (fun i =>
            let b := base.getD i ⟨"", 0, 0, 0⟩
            { customer_id := b.customer_id
              recency := b.recency
              frequency := b.frequency
              monetary := b.monetary
              recency_score := rs.getD i 0
              frequency_score := fs.getD i 0
              monetary_score := ms.getD i 0
              rfm_score := toString (rs.getD i 0) ++ toString (fs.getD i 0)
                ++ toString (ms.getD i 0) }))

/-- Pandas `Series.median()`: middle element of the sorted values, or the
average of the two middle elements. -/
def median (xs : List ℚ) : ℚ :=
  let s := List.insertionSort (· ≤ ·) xs
  let n := s.length
  if n = 0 then 0
  else if n % 2 = 1 then s.getD (n / 2) 0
  else (s.getD (n / 2 - 1) 0 + s.getD (n / 2) 0) / 2

/-- One row of the per-cluster summary of `segment_customers`
(`groupby('cluster')` means of the three RFM dimensions plus the customer
count, rounded to 2 decimals). -/
structure ClusterSummary where
  cluster : Nat
  recency_mean : ℚ
  frequency_mean : ℚ
  monetary_mean : ℚ
  count : Nat
deriving DecidableEq, Repr

/-- `_assign_segment_names`: each cluster is named by comparing its mean
frequency / monetary / recency to the medians of the cluster means. -/
def assignSegmentNames (summary : List ClusterSummary) : List (Nat × String) :=
  let fmed := median (summary.map (·.frequency_mean))
  let mmed := median (summary.map (·.monetary_mean))
  let rmed := median (summary.map (·.recency_mean))
  summary.map (fun cs =>
    (cs.cluster,
      if fmed ≤ cs.frequency_mean ∧ mmed ≤ cs.monetary_mean then
        (if cs.recency_mean ≤ rmed then "Champions" else "Loyal Customers")
      else if fmed ≤ cs.frequency_mean then
        (if cs.recency_mean ≤ rmed then "Potential Loyalists" else "At Risk")
      else if mmed ≤ cs.monetary_mean then
        (if cs.recency_mean ≤ rmed then "New Customers" else "Hibernating")
      else
        (if cs.recency_mean ≤ rmed then "Promising" else "Lost Customers")))

/-- `segment_customers`: empty result on empty input, the RFM computation
(whose qcut ValueError propagates — the source has no try/except), the
fewer-customers-than-clusters empty result, then clustering of the raw RFM
features (StandardScaler + KMeans abstracted as `kmeans`, one label per
customer), the per-cluster summary (`groupby('cluster')`, keys ascending),
the segment naming and the per-row name lookup.  The per-segment statistics
block is independent downstream aggregation no claim mentions and is not
carried. -/
def segment_customers (kmeans : List (ℚ × ℚ × ℚ) → List Nat)
    (data : List Transaction) (n_clusters : Nat) :
    Except String (List (RFMRow × Nat × String) × List (Nat × String)) :=
  if data = [] then .ok ([], [])
  else
    match calculate_rfm_metrics data with
    | .error e => .error e
    | .ok rfm =>
      if rfm.length < n_clusters then .ok ([], [])
      else
        let features := rfm.map (fun r =>
          ((r.recency : ℚ), (r.frequency : ℚ), r.monetary))
        let labels := kmeans features
        let rows := rfm.zip labels
        let clusters := List.insertionSort (· ≤ ·) labels.dedup
        let summary := clusters.map (fun c =>
          let members := (rows.filter (fun p => p.2 = c)).map Prod.fst
          ClusterSummary.mk c
            (round2 (mean (members.map (fun r => (r.recency : ℚ)))))
            (round2 (mean (members.map (fun r => (r.frequency : ℚ)))))
            (round2 (mean (members.map (·.monetary))))
            members.length)
        let names := assignSegmentNames summary
        .ok (rows.map (fun p => (p.1, p.2, ((names.lookup p.2).getD ""))),
          names)

/-- The ad-hoc result dictionary of `detect_real_time_anomalies`; absent
keys are `none` (the three shapes are the no-history verdict, the computed
verdict, and the caught-exception verdict).  All z-scores are carried as
squares. -/
structure RTVerdict where
  is_anomaly : Bool
  anomaly_score_sq : Option ℚ
  reasons : Option (List String)
  amount_zscore_sq : Option ℚ
  quantity_zscore_sq : Option ℚ
  category_zscore_sq : Option ℚ
  reason : Option String
deriving DecidableEq, Repr

/-- Division that fails on a zero divisor, the arithmetic hazard the
real-time detector guards with its `std > 0` checks. -/
def qdivE (a b : ℚ) : Except String ℚ :=
  if b = 0 then .error "division by zero" else .ok (a / b)

/-- A guarded squared z-score of the real-time detector:
`abs((x - mean) / std) if std > 0 else 0`. -/
def guardedZSq (xs : List ℚ) (x : ℚ) : Except String ℚ :=
  if 0 < sampleVar xs then qdivE ((x - mean xs) ^ 2) (sampleVar xs) else pure 0

/-- The try-block body of `detect_real_time_anomalies`: the three z-scores
against history (amount, quantity, and same-category amount), the threshold
comparisons (`z > threshold_std`, stated on squares — equivalent for the
nonnegative thresholds the callers pass, default 2), the reason strings
(without the interpolated score digits, which are display formatting), and
the verdict with the maximal component score. -/
def rtBody (tx : Transaction) (hist : List Transaction) (thr : ℚ) :
    Except String RTVerdict := do
  let amount := tx.total_amount
  let quantity := tx.quantity
  let category := tx.category
  let azsq ← guardedZSq (hist.map (·.total_amount)) amount
  let qzsq ← guardedZSq (hist.map (·.quantity)) quantity
  let catData := hist.filter (fun t => t.category = category)
  let czsq ← if catData = [] then pure 0
    else guardedZSq (catData.map (·.total_amount)) amount
  let catAnomaly := !(decide (catData = [])) && decide (thr ^ 2 < czsq)
  let isAnomaly := decide (thr ^ 2 < azsq) || decide (thr ^ 2 < qzsq)
    || catAnomaly
  let reasons :=
    (if thr ^ 2 < azsq then ["Unusual amount"] else [])
    ++ (if thr ^ 2 < qzsq then ["Unusual quantity"] else [])
    ++ (if catAnomaly then ["Unusual for category"] else [])
  pure ⟨isAnomaly, some (max azsq (max qzsq czsq)), some reasons,
    some azsq, some qzsq, some czsq, none⟩

/-- The no-history verdict `{'is_anomaly': False, 'reason': 'No historical data'}`. -/
def noHistoryVerdict : RTVerdict :=
  ⟨false, none, none, none, none, none, some "No historical data"⟩

/-- `detect_real_time_anomalies`: the empty-history early return, the body,
and the except clause converting any internal failure into a non-anomalous
verdict carrying an error string. -/
def detect_real_time_anomalies (tx : Transaction) (hist : List Transaction)
    (thr : ℚ) : RTVerdict :=
  if hist = [] then noHistoryVerdict
  else
    match rtBody tx hist thr with
    | .ok v => v
    | .error e =>
      ⟨false, none, none, none, none, none, some ("Error in detection: " ++ e)⟩

/-- A well-formed transaction with the fields the detectors read
(`subtotal = amount`, `tax = 0`, so `total = subtotal + tax`). -/
def sampleTx (ts : Int) (amount qty : ℚ) (cust : String) : Transaction :=
  ⟨"t", ts, "s1", "p", "general", 1, qty, amount, 0, amount, "cash", cust⟩

/-- Two transactions with identical amounts and quantities (both variances
zero), one at 3 AM. -/
def tblFlat : List Transaction :=
  [sampleTx (3 * 3600) 10 1 "a", sampleTx (10 * 3600) 10 1 "b"]

/-- Two daytime-and-night transactions with differing amounts: the 3 AM row
is flagged only by the time-of-day rule, while the amount variance is
positive. -/
def tblNight : List Transaction :=
  [sampleTx (3 * 3600) 0 1 "a", sampleTx (10 * 3600) 10 1 "b"]

/-- Eleven noon transactions, ten of amount 0 and one of amount 11: the last
row's squared amount z-score is 100/11 > 9. -/
def tblOutlier : List Transaction :=
  (List.range 10).map (fun k => sampleTx (12 * 3600) 0 1 (toString k))
    ++ [sampleTx (12 * 3600) 11 1 "z"]

/-- Two customers transacting at the same instant: both recencies are 0, a
degenerate distribution for the recency quantiles. -/
def tblSameDay : List Transaction :=
  [sampleTx 1000000 10 1 "a", sampleTx 1000000 20 1 "b"]

/-- The spec's own segmentation example: four transactions of customer A at
10 and four of customer B at 1000, all on the same day (so all recencies
are 0). -/
def tblTwoCustomers : List Transaction :=
  [sampleTx 2000000 10 1 "A", sampleTx 2000000 10 1 "A",
   sampleTx 2000000 10 1 "A", sampleTx 2000000 10 1 "A",
   sampleTx 2000000 1000 1 "B", sampleTx 2000000 1000 1 "B",
   sampleTx 2000000 1000 1 "B", sampleTx 2000000 1000 1 "B"]

/-- Five customers on five consecutive days with spread amounts: all three
RFM quantile scorings succeed. -/
def tblFiveDays : List Transaction :=
  [sampleTx 0 10 1 "c1", sampleTx 86400 20 1 "c2", sampleTx 172800 30 1 "c3",
   sampleTx 259200 40 1 "c4", sampleTx 345600 50 1 "c5"]

/-- The RFM result of `tblFiveDays`. -/
def rfmFiveDays : List RFMRow :=
  [⟨"c1", 4, 1, 10, 1, 1, 1, "111"⟩, ⟨"c2", 3, 1, 20, 2, 2, 2, "222"⟩,
   ⟨"c3", 2, 1, 30, 3, 3, 3, "333"⟩, ⟨"c4", 1, 1, 40, 4, 4, 4, "444"⟩,
   ⟨"c5", 0, 1, 50, 5, 5, 5, "555"⟩]

lemma sum_zero_of_nonneg (l : List ℚ) (h0 : ∀ x ∈ l, 0 ≤ x)
    (hs : l.sum = 0) : ∀ x ∈ l, x = 0 := by
  induction l with
  | nil => intro x hx; cases hx
  | cons a t ih =>
    have ha : 0 ≤ a := h0 a (List.mem_cons_self a t)
    have ht : 0 ≤ t.sum :=
      List.sum_nonneg (fun x hx => h0 x (List.mem_cons_of_mem a hx))
    have hsum : a + t.sum = 0 := by simpa using hs
    have ha0 : a = 0 := le_antisymm (by linarith) ha
    have hts : t.sum = 0 := by linarith
    intro x hx
    rcases List.mem_cons.mp hx with h | h
    · rw [h, ha0]
    · exact ih (fun y hy => h0 y (List.mem_cons_of_mem a hy)) hts x h

lemma eq_mean_of_sampleVar_eq_zero (xs : List ℚ) (h : sampleVar xs = 0) :
    ∀ x ∈ xs, x = mean xs := by
  intro x hx
  by_cases hlen : xs.length ≤ 1
  · match xs, hx with
    | [a], hx =>
      have : x = a := by simpa using hx
      rw [this]
      simp [mean]
  · unfold sampleVar at h
    rw [if_neg hlen] at h
    have hden : ((xs.length : ℚ) - 1) ≠ 0 := by
      have h2 : 2 ≤ xs.length := by omega
      have h2q : (2 : ℚ) ≤ (xs.length : ℚ) := by exact_mod_cast h2
      linarith
    have hsum : ((xs.map (fun y => (y - mean xs) ^ 2)).sum) = 0 := by
      rcases div_eq_zero_iff.mp h with h1 | h2
      · exact h1
      · exact absurd h2 hden
    have hmem : (x - mean xs) ^ 2 ∈ xs.map (fun y => (y - mean xs) ^ 2) :=
      List.mem_map_of_mem _ hx
    have hz : (x - mean xs) ^ 2 = 0 := by
      refine sum_zero_of_nonneg _ ?_ hsum _ hmem
      intro y hy
      rcases List.mem_map.mp hy with ⟨a, _, rfl⟩
      exact sq_nonneg _
    have : x - mean xs = 0 := by
      exact pow_eq_zero_iff (two_ne_zero) |>.mp hz
    linarith

lemma quantileSorted_const (s : List ℚ) (c q : ℚ) (hne : s ≠ [])
    (hall : ∀ x ∈ s, x = c) (hq : q ≤ 1) : quantileSorted s q = c := by
  simp only [quantileSorted]
  have hn1 : 1 ≤ s.length := List.length_pos.mpr hne
  have hnq : (0 : ℚ) ≤ (s.length : ℚ) - 1 := by
    have : (1 : ℚ) ≤ (s.length : ℚ) := by exact_mod_cast hn1
    linarith
  have hposle : q * ((s.length : ℚ) - 1) ≤ (s.length : ℚ) - 1 :=
    mul_le_of_le_one_left hnq hq
  have hfl : ⌊q * ((s.length : ℚ) - 1)⌋ ≤ (s.length : ℤ) - 1 := by
    have h1 : ⌊q * ((s.length : ℚ) - 1)⌋ ≤ ⌊(s.length : ℚ) - 1⌋ :=
      Int.floor_le_floor hposle
    have h2 : ⌊(s.length : ℚ) - 1⌋ = (s.length : ℤ) - 1 := by
      rw [show ((s.length : ℚ) - 1) = (((s.length : ℤ) - 1 : ℤ) : ℚ) by push_cast; ring]
      exact Int.floor_intCast _
    omega
  have hi : (⌊q * ((s.length : ℚ) - 1)⌋).toNat < s.length := by
    have := Int.toNat_le.mpr (le_trans hfl (by omega : (s.length : ℤ) - 1 ≤ ((s.length - 1 : ℕ) : ℤ)))
    omega
  have hlo : s.getD (⌊q * ((s.length : ℚ) - 1)⌋).toNat 0 = c := by
    rw [List.getD_eq_getElem _ _ hi]
    exact hall _ (List.getElem_mem _)
  by_cases h2 : (⌊q * ((s.length : ℚ) - 1)⌋).toNat + 1 < s.length
  · have hhi : s.getD ((⌊q * ((s.length : ℚ) - 1)⌋).toNat + 1)
        (s.getD (⌊q * ((s.length : ℚ) - 1)⌋).toNat 0) = c := by
      rw [List.getD_eq_getElem _ _ h2]
      exact hall _ (List.getElem_mem _)
    rw [hhi, hlo]; ring
  · have hhi : s.getD ((⌊q * ((s.length : ℚ) - 1)⌋).toNat + 1)
        (s.getD (⌊q * ((s.length : ℚ) - 1)⌋).toNat 0)
        = s.getD (⌊q * ((s.length : ℚ) - 1)⌋).toNat 0 :=
      List.getD_eq_default _ _ (by omega)
    rw [hhi, hlo]; ring

lemma quantile_const (xs : List ℚ) (c q : ℚ) (hne : xs ≠ [])
    (hall : ∀ x ∈ xs, x = c) (hq : q ≤ 1) : quantile xs q = c := by
  unfold quantile
  rw [if_neg (by simpa [List.length_eq_zero] using hne)]
  refine quantileSorted_const _ _ _ ?_ ?_ hq
  · intro hcon
    have := (List.perm_insertionSort (· ≤ ·) xs).length_eq
    rw [hcon] at this
    exact hne (List.length_eq_zero.mp this.symm)
  · intro x hx
    exact hall x ((List.perm_insertionSort (· ≤ ·) xs).mem_iff.mp hx)

lemma listMaxInt_mem : ∀ (l : List Int), l ≠ [] → listMaxInt l ∈ l := by
  intro l
  induction l with
  | nil => intro h; exact absurd rfl h
  | cons x t ih =>
    intro _
    cases t with
    | nil => simp [listMaxInt]
    | cons y t2 =>
      rcases max_choice x (listMaxInt (y :: t2)) with h | h
      · simp [listMaxInt, h]
      · have := ih (by simp)
        simp only [listMaxInt, h]
        exact List.mem_cons_of_mem x this

lemma le_listMaxInt (l : List Int) (y : Int) (hy : y ∈ l) :
    y ≤ listMaxInt l := by
  induction l with
  | nil => cases hy
  | cons x t ih =>
    cases t with
    | nil =>
      have : y = x := by simpa using hy
      simp [listMaxInt, this]
    | cons z t2 =>
      rcases List.mem_cons.mp hy with h | h
      · simp only [listMaxInt, h]
        exact le_max_left _ _
      · exact le_trans (ih h) (by simp [listMaxInt])

lemma prepare_features_length (data : List Transaction) :
    (prepare_features data).length = data.length := by
  simp [prepare_features]

lemma prepare_features_ne_nil (data : List Transaction) (h : data ≠ []) :
    prepare_features data ≠ [] := by
  intro hcon
  have := prepare_features_length data
  rw [hcon] at this
  exact h (List.length_eq_zero.mp this.symm)

lemma guardedZSq_ok (xs : List ℚ) (x : ℚ) :
    guardedZSq xs x
      = .ok (if 0 < sampleVar xs then (x - mean xs) ^ 2 / sampleVar xs else 0) := by
  unfold guardedZSq qdivE
  split_ifs with h h2
  · exact absurd h2 (by intro h2; rw [h2] at h; exact lt_irrefl 0 h)
  · rfl
  · rfl

lemma statisticalDetection_fst_toFinset (data : List Transaction) :
    ((statisticalDetection data).map Prod.fst).toFinset
      = (statisticalIndices data).toFinset := by
  unfold statisticalDetection
  have hperm :=
    (List.perm_insertionSort (fun a b : Nat × ℚ => b.2 ≤ a.2)
      ((statisticalIndices data).map (fun i => (i, statScoreSq data i)))).map
      Prod.fst
  rw [List.toFinset_eq_of_perm _ _ hperm, List.map_map]
  rw [show (Prod.fst ∘ fun i : Nat => (i, statScoreSq data i)) = id from rfl,
    List.map_id]

lemma resultPairs_ok (l : List (Nat × ℚ)) : resultPairs (.ok l) = l := rfl


lemma amountVar_tblFlat : sampleVar (amountList tblFlat) = 0 := by
  norm_num [sampleVar, mean, amountList, tblFlat, sampleTx]

lemma qtyVar_tblFlat : sampleVar (qtyList tblFlat) = 0 := by
  norm_num [sampleVar, mean, qtyList, tblFlat, sampleTx]

lemma statIdx_tblFlat : statisticalIndices tblFlat = [0] := by
  norm_num [statisticalIndices, statFlagged, zFlag, iqrFlag, timeFlag,
    quantile, quantileSorted, sampleVar, mean, amountList, qtyList, hourList,
    hourOfTs, tblFlat, sampleTx, List.range_succ, List.insertionSort,
    List.orderedInsert]

lemma zFlag_tblOutlier : zFlag (amountList tblOutlier)
    ((amountList tblOutlier).getD 10 0) = true := by
  norm_num [zFlag, sampleVar, mean, amountList, tblOutlier, sampleTx,
    List.range_succ]

/-- C1 (amended): for every transaction table, `_statistical_detection`
flags row `i` whenever the guarded amount z-score test fires (positive
amount std and `|z| > 3`, stated on squares); and when the total-amount
column has zero variance no row is flagged by either amount-based rule
(the z-score guard is off and the IQR collapses to 0), so every flagged
row is flagged by the quantity z-score rule or the time-of-day rule —
but, contrary to the claim, such rows can exist. -/
theorem statistical_flags_amount_zscore :
    (∀ (data : List Transaction) (i : Nat), i < data.length →
        zFlag (amountList data) ((amountList data).getD i 0) = true →
        i ∈ statisticalIndices data)
    ∧ (∀ (data : List Transaction), sampleVar (amountList data) = 0 →
        ∀ i ∈ statisticalIndices data,
          (zFlag (qtyList data) ((qtyList data).getD i 0)
            || timeFlag ((hourList data).getD i 0)) = true) := by
  constructor
  · intro data i hi hz
    refine List.mem_filter.mpr ⟨List.mem_range.mpr hi, ?_⟩
    show statFlagged data i = true
    rw [statFlagged, hz]
    rfl
  · intro data hvar i hi
    have hflag : statFlagged data i = true := (List.mem_filter.mp hi).2
    have hilt : i < data.length := List.mem_range.mp (List.mem_filter.mp hi).1
    have hz : zFlag (amountList data) ((amountList data).getD i 0)
        = false := by
      simp [zFlag, hvar]
    have hne : amountList data ≠ [] := by
      intro hcon
      have hlen := congrArg List.length hcon
      simp only [amountList, List.length_map, List.length_nil] at hlen
      omega
    have hall : ∀ x ∈ amountList data, x = mean (amountList data) :=
      eq_mean_of_sampleVar_eq_zero _ hvar
    have hq1 : quantile (amountList data) (1 / 4) = mean (amountList data) :=
      quantile_const _ _ _ hne hall (by norm_num)
    have hq3 : quantile (amountList data) (3 / 4) = mean (amountList data) :=
      quantile_const _ _ _ hne hall (by norm_num)
    have hiqr : iqrFlag (amountList data) ((amountList data).getD i 0)
        = false := by
      simp only [iqrFlag]
      rw [hq1, hq3]
      simp
    simp only [statFlagged, hz, hiqr, Bool.false_or] at hflag
    exact hflag

/-- C1 counterexample: in `tblFlat` the amount and quantity columns both
have zero variance, yet the statistical method flags row 0 (a 3 AM
transaction caught by the time-of-day rule), so zero variance does not
imply an empty statistical result. -/
theorem statistical_zero_variance_counterexample :
    sampleVar (amountList tblFlat) = 0 ∧ sampleVar (qtyList tblFlat) = 0
      ∧ statisticalIndices tblFlat = [0] :=
  ⟨amountVar_tblFlat, qtyVar_tblFlat, statIdx_tblFlat⟩

/-- C1 witness: the amended theorem applied at concrete inputs — row 10 of
`tblOutlier` passes the amount z-score test and is flagged, and the row
flagged in the zero-variance table `tblFlat` is caught by the quantity or
time rules. -/
theorem statistical_flags_amount_zscore_witness :
    10 ∈ statisticalIndices tblOutlier
      ∧ (zFlag (qtyList tblFlat) ((qtyList tblFlat).getD 0 0)
          || timeFlag ((hourList tblFlat).getD 0 0)) = true :=
  ⟨statistical_flags_amount_zscore.1 tblOutlier 10 (by decide) zFlag_tblOutlier,
   statistical_flags_amount_zscore.2 tblFlat amountVar_tblFlat 0
     (by rw [statIdx_tblFlat]; exact List.mem_singleton.mpr rfl)⟩

lemma statDet_tblNight : statisticalDetection tblNight = [(0, 1 / 2)] := by
  norm_num [statisticalDetection, statisticalIndices, statFlagged, zFlag,
    iqrFlag, timeFlag, statScoreSq, amountZSq, quantile, quantileSorted,
    sampleVar, mean, amountList, qtyList, hourList, hourOfTs, tblNight,
    sampleTx, List.range_succ, List.insertionSort, List.orderedInsert]

lemma amountVar_tblNight : sampleVar (amountList tblNight) = 50 := by
  norm_num [sampleVar, mean, amountList, tblNight, sampleTx]

lemma zFlagAmount_tblNight : zFlag (amountList tblNight)
    ((amountList tblNight).getD 0 0) = false := by
  norm_num [zFlag, sampleVar, mean, amountList, tblNight, sampleTx]

lemma iqrFlag_tblNight : iqrFlag (amountList tblNight)
    ((amountList tblNight).getD 0 0) = false := by
  norm_num [iqrFlag, quantile, quantileSorted, amountList, tblNight,
    sampleTx, List.insertionSort, List.orderedInsert]

lemma zFlagQty_tblNight : zFlag (qtyList tblNight)
    ((qtyList tblNight).getD 0 0) = false := by
  norm_num [zFlag, sampleVar, mean, qtyList, tblNight, sampleTx]

lemma timeFlag_tblNight : timeFlag ((hourList tblNight).getD 0 0) = true := by
  norm_num [timeFlag, hourList, hourOfTs, tblNight, sampleTx]

/-- C2 counterexample: row 0 of `tblNight` is flagged only by the
time-of-day rule (the amount z-score, IQR and quantity rules all return
false on it), yet its reported anomaly score is its amount z-score —
squared value 1/2 — and not the claimed default of 1.0. -/
theorem statistical_score_default_counterexample :
    statisticalDetection tblNight = [(0, 1 / 2)]
      ∧ zFlag (amountList tblNight) ((amountList tblNight).getD 0 0) = false
      ∧ iqrFlag (amountList tblNight) ((amountList tblNight).getD 0 0) = false
      ∧ zFlag (qtyList tblNight) ((qtyList tblNight).getD 0 0) = false
      ∧ timeFlag ((hourList tblNight).getD 0 0) = true
      ∧ ((1 : ℚ) / 2 ≠ 1) :=
  ⟨statDet_tblNight, zFlagAmount_tblNight, iqrFlag_tblNight,
   zFlagQty_tblNight, timeFlag_tblNight, by norm_num⟩

/-- C2 (amended): a row flagged via the amount z-score test does get that
z-score as its anomaly score; but whenever the amount variance is positive
the `amount_zscore` column exists and every flagged row — however it was
flagged — receives its amount z-score as its score; the 1.0 default
applies exactly when the amount variance is zero. -/
theorem statistical_score_is_amount_zscore :
    (∀ (data : List Transaction) (i : Nat),
        zFlag (amountList data) ((amountList data).getD i 0) = true →
        statScoreSq data i = amountZSq data i)
    ∧ (∀ (data : List Transaction) (i : Nat),
        0 < sampleVar (amountList data) →
        statScoreSq data i = amountZSq data i)
    ∧ (∀ (data : List Transaction) (i : Nat),
        sampleVar (amountList data) = 0 → statScoreSq data i = 1) := by
  refine ⟨?_, ?_, ?_⟩
  · intro data i hz
    simp only [zFlag, Bool.and_eq_true, decide_eq_true_eq] at hz
    simp [statScoreSq, hz.1]
  · intro data i hv
    simp [statScoreSq, hv]
  · intro data i hv
    simp [statScoreSq, hv]

/-- C2 witness: the amended theorem applied at concrete inputs — the
z-flagged outlier row, the merely time-flagged row of a positive-variance
table, and a row of a zero-variance table. -/
theorem statistical_score_is_amount_zscore_witness :
    statScoreSq tblOutlier 10 = amountZSq tblOutlier 10
      ∧ statScoreSq tblNight 0 = amountZSq tblNight 0
      ∧ statScoreSq tblFlat 0 = 1 :=
  ⟨statistical_score_is_amount_zscore.1 tblOutlier 10 zFlag_tblOutlier,
   statistical_score_is_amount_zscore.2.1 tblNight 0
     (by rw [amountVar_tblNight]; norm_num),
   statistical_score_is_amount_zscore.2.2 tblFlat 0 amountVar_tblFlat⟩

/-- C5: for every transaction table (and every behaviour of the abstracted
isolation-forest model), the combined method's flagged index set equals the
union of the density method's and the statistical method's flagged index
sets, and every combined row carries the fixed anomaly score 0.8
(its square 16/25 in this encoding). -/
theorem combined_union_and_score (oracle : List FeatureRow → List (Nat × ℚ))
    (data : List Transaction) :
    ((resultPairs (detect_anomalies oracle data "combined")).map
        Prod.fst).toFinset
      = ((resultPairs (detect_anomalies oracle data "isolation_forest")).map
          Prod.fst).toFinset
        ∪ ((resultPairs (detect_anomalies oracle data "statistical")).map
            Prod.fst).toFinset
    ∧ ∀ p ∈ resultPairs (detect_anomalies oracle data "combined"),
        p.2 = (16 / 25 : ℚ) := by
  by_cases hd : data = []
  · subst hd
    refine ⟨by simp [detect_anomalies, resultPairs], ?_⟩
    intro p hp
    simp [detect_anomalies, resultPairs] at hp
  · have hf : prepare_features data ≠ [] := prepare_features_ne_nil data hd
    have hcomb : detect_anomalies oracle data "combined"
        = .ok (((((isolation_forest_detection oracle
              (prepare_features data)).map Prod.fst)
            ++ ((statisticalDetection data).map Prod.fst)).dedup).map
            (fun i => (i, (16 / 25 : ℚ)))) := by
      simp [detect_anomalies, hd, hf]
    have hiso : detect_anomalies oracle data "isolation_forest"
        = .ok (isolation_forest_detection oracle (prepare_features data)) := by
      simp [detect_anomalies, hd, hf]
    have hstat : detect_anomalies oracle data "statistical"
        = .ok (statisticalDetection data) := by
      simp [detect_anomalies, hd, hf]
    rw [hcomb, hiso, hstat]
    constructor
    · simp only [resultPairs_ok, List.map_map]
      rw [show (Prod.fst ∘ fun i : Nat => (i, (16 / 25 : ℚ))) = id from rfl,
        List.map_id]
      ext x
      simp [List.mem_dedup, List.mem_append]
    · intro p hp
      simp only [resultPairs_ok] at hp
      rcases List.mem_map.mp hp with ⟨i, _, rfl⟩
      rfl

/-- C6: for every transaction table whose prepared feature table has fewer
than 10 rows, the density (isolation-forest) method returns an empty
result, whatever the abstracted model would do. -/
theorem isolation_forest_small_table_empty
    (oracle : List FeatureRow → List (Nat × ℚ)) (data : List Transaction)
    (h : (prepare_features data).length < 10) :
    resultPairs (detect_anomalies oracle data "isolation_forest") = [] := by
  by_cases hd : data = []
  · subst hd; rfl
  · have hf : prepare_features data ≠ [] := prepare_features_ne_nil data hd
    have hiso : detect_anomalies oracle data "isolation_forest"
        = .ok (isolation_forest_detection oracle (prepare_features data)) := by
      simp [detect_anomalies, hd, hf]
    rw [hiso, resultPairs_ok, isolation_forest_detection, if_pos h]

/-- C6 witness: the theorem applied to a 2-row table and an arbitrary
oracle. -/
theorem isolation_forest_small_table_empty_witness :
    resultPairs (detect_anomalies (fun _ => []) tblFlat "isolation_forest")
      = [] :=
  isolation_forest_small_table_empty (fun _ => []) tblFlat (by decide)

/-- C9 (amended): for every non-empty transaction table (feature
preparation of a non-empty typed table is never empty), an unsupported
detection method name makes `detect_anomalies` raise the ValueError rather
than return a result. -/
theorem invalid_method_raises (oracle : List FeatureRow → List (Nat × ℚ))
    (data : List Transaction) (method : String) (hd : data ≠ [])
    (h1 : method ≠ "isolation_forest") (h2 : method ≠ "statistical")
    (h3 : method ≠ "combined") :
    detect_anomalies oracle data method
      = .error "Method must be one of isolation_forest, statistical, combined"
    := by
  have hf : prepare_features data ≠ [] := prepare_features_ne_nil data hd
  simp [detect_anomalies, hd, hf, h1, h2, h3]

/-- C9 counterexample: on the empty table an unsupported method name does
not raise — the emptiness check answers first with an empty result, so the
claim's "for every transaction table" fails. -/
theorem invalid_method_empty_table_counterexample :
    detect_anomalies (fun _ => []) ([] : List Transaction) "bogus"
      = .ok [] := rfl

/-- C9 witness: the amended theorem applied to a non-empty table and the
unsupported method name "bogus". -/
theorem invalid_method_raises_witness :
    detect_anomalies (fun _ => []) tblFlat "bogus"
      = .error "Method must be one of isolation_forest, statistical, combined"
    :=
  invalid_method_raises (fun _ => []) tblFlat "bogus" (by decide) (by decide)
    (by decide) (by decide)

/-- C10: on the empty transaction table, `detect_anomalies` returns the
empty result for every method name — including unsupported ones — without
raising, because the emptiness checks precede the method-name validation. -/
theorem empty_table_any_method_empty
    (oracle : List FeatureRow → List (Nat × ℚ)) (method : String) :
    detect_anomalies oracle ([] : List Transaction) method = .ok [] := rfl

lemma qcut_const_err : qcut [(0 : ℚ), 0] 5 [5, 4, 3, 2, 1]
    = .error "Bin labels must be one fewer than the number of bin edges" := by
  norm_num [qcut, quantile, quantileSorted, binOf, List.range_succ,
    List.insertionSort, List.orderedInsert, List.dedup_cons_of_mem,
    List.dedup_cons_of_not_mem, Int.toNat_ofNat]

lemma recencies_tblSameDay :
    (rfmBase tblSameDay).map (fun b => (b.recency : ℚ)) = [0, 0] := by
  norm_num [rfmBase, customers, recencyOf, custTxs, currentDate,
    customerMaxTs, listMaxInt, tblSameDay, sampleTx,
    show (["a", "b"] : List String).dedup = ["a", "b"] from by decide,
    show Int.ediv 0 86400 = 0 from by decide, max_self]

lemma calc_rfm_tblSameDay_err : calculate_rfm_metrics tblSameDay
    = .error "Bin labels must be one fewer than the number of bin edges" := by
  simp only [calculate_rfm_metrics]
  rw [if_neg (by simp [tblSameDay, sampleTx])]
  rw [recencies_tblSameDay, qcut_const_err]

lemma recencies_tblTwoCustomers :
    (rfmBase tblTwoCustomers).map (fun b => (b.recency : ℚ)) = [0, 0] := by
  norm_num [rfmBase, customers, recencyOf, custTxs, currentDate,
    customerMaxTs, listMaxInt, tblTwoCustomers, sampleTx,
    show (["A", "A", "A", "A", "B", "B", "B", "B"] : List String).dedup
      = ["A", "B"] from by decide,
    show Int.ediv 0 86400 = 0 from by decide, max_self]

lemma calc_rfm_tblTwoCustomers_err : calculate_rfm_metrics tblTwoCustomers
    = .error "Bin labels must be one fewer than the number of bin edges" := by
  simp only [calculate_rfm_metrics]
  rw [if_neg (by simp [tblTwoCustomers, sampleTx])]
  rw [recencies_tblTwoCustomers, qcut_const_err]

/-- C3 (code bug): on a non-empty table whose customers all share the same
recency (here two customers transacting at the same instant), the recency
quantile edges all coincide; with `duplicates='drop'` pandas keeps one edge,
the five supplied labels no longer match the zero remaining bins, and
`pd.qcut` raises a ValueError that `calculate_rfm_metrics` propagates —
contradicting the requirement that degenerate distributions must not raise. -/
theorem rfm_degenerate_distribution_raises :
    calculate_rfm_metrics tblSameDay
      = .error "Bin labels must be one fewer than the number of bin edges" :=
  calc_rfm_tblSameDay_err

/-- C4 (code bug): segmentation with K = 2 on a table with 2 distinct
customers — the spec's own example of customers A and B buying on the same
day — raises: `segment_customers` calls `calculate_rfm_metrics`, whose
recency qcut fails as in C3, and has no handler, so the ValueError
propagates for every behaviour of the abstracted clustering model instead
of returning K segment names. -/
theorem segmentation_degenerate_raises
    (km : List (ℚ × ℚ × ℚ) → List Nat) :
    segment_customers km tblTwoCustomers 2
      = .error "Bin labels must be one fewer than the number of bin edges" := by
  simp only [segment_customers]
  rw [if_neg (by simp [tblTwoCustomers, sampleTx])]
  rw [calc_rfm_tblTwoCustomers_err]

/-- C7: whenever `calculate_rfm_metrics` returns a result, every returned
row's recency is nonnegative and equals the floor of the day difference
between the dataset's maximum timestamp and that customer's own latest
transaction timestamp. -/
theorem rfm_recency_days_nonneg (data : List Transaction)
    (rows : List RFMRow) (h : calculate_rfm_metrics data = .ok rows) :
    ∀ r ∈ rows, 0 ≤ r.recency
      ∧ r.recency
        = Int.ediv (currentDate data - customerMaxTs data r.customer_id)
            86400 := by
  intro r hr
  by_cases hd : data = []
  · subst hd
    simp only [calculate_rfm_metrics, if_pos rfl] at h
    rw [show rows = [] from (Except.ok.injEq _ _).mp h.symm] at hr
    cases hr
  · unfold calculate_rfm_metrics at h
    rw [if_neg hd] at h
    simp only [] at h
    split at h
    · exact absurd h (by simp)
    · split at h
      · exact absurd h (by simp)
      · split at h
        · exact absurd h (by simp)
        · rw [Except.ok.injEq] at h
          rw [← h] at hr
          obtain ⟨i, himem, rfl⟩ := List.mem_map.mp hr
          have hilt : i < (rfmBase data).length := List.mem_range.mp himem
          have hgd : (rfmBase data).getD i ⟨"", 0, 0, 0⟩
              = (rfmBase data)[i] := List.getD_eq_getElem _ _ hilt
          have hic : i < (customers data).length := by
            have := hilt
            simpa [rfmBase] using this
          have hbase : (rfmBase data)[i]
              = ⟨(customers data)[i], recencyOf data ((customers data)[i]),
                  frequencyOf data ((customers data)[i]),
                  monetaryOf data ((customers data)[i])⟩ := by
            simp [rfmBase]
          set cid := (customers data)[i] with hcid
          have hmem : cid ∈ customers data := List.getElem_mem _
          have hmem2 : cid ∈ data.map (·.customer_id) :=
            List.mem_dedup.mp hmem
          obtain ⟨t, htmem, htc⟩ := List.mem_map.mp hmem2
          have htfilter : t ∈ custTxs data cid :=
            List.mem_filter.mpr ⟨htmem, by simp [htc]⟩
          have hne : (custTxs data cid).map (·.timestamp) ≠ [] := by
            intro hcon
            have := congrArg List.length hcon
            simp only [List.length_map, List.length_nil] at this
            rw [List.length_eq_zero] at this
            rw [this] at htfilter
            cases htfilter
          have hmaxmem := listMaxInt_mem _ hne
          obtain ⟨u, humem, hut⟩ := List.mem_map.mp hmaxmem
          have hudata : u ∈ data := List.mem_of_mem_filter humem
          have hle : customerMaxTs data cid ≤ currentDate data := by
            rw [customerMaxTs, ← hut]
            exact le_listMaxInt _ _ (List.mem_map_of_mem _ hudata)
          have hnn : 0 ≤ recencyOf data cid := by
            unfold recencyOf
            exact Int.ediv_nonneg (by omega) (by norm_num)
          constructor
          · show 0 ≤ RFMRow.recency _
            rw [hgd, hbase]
            exact hnn
          · show RFMRow.recency _ = _
            rw [hgd, hbase]
            rfl

lemma rfmBase_tblFiveDays :
    rfmBase tblFiveDays = [⟨"c1", 4, 1, 10⟩, ⟨"c2", 3, 1, 20⟩,
      ⟨"c3", 2, 1, 30⟩, ⟨"c4", 1, 1, 40⟩, ⟨"c5", 0, 1, 50⟩] := by
  norm_num +decide [rfmBase, customers, recencyOf, frequencyOf, monetaryOf, custTxs,
    currentDate, customerMaxTs, listMaxInt, round2, tblFiveDays, sampleTx,
    max_def,
    show (["c1", "c2", "c3", "c4", "c5"] : List String).dedup
      = ["c1", "c2", "c3", "c4", "c5"] from by decide,
    show Int.ediv 345600 86400 = 4 from by decide,
    show Int.ediv 259200 86400 = 3 from by decide,
    show Int.ediv 172800 86400 = 2 from by decide,
    show Int.ediv 86400 86400 = 1 from by decide,
    show Int.ediv 0 86400 = 0 from by decide]

lemma qcut_rec5 : qcut [(4 : ℚ), 3, 2, 1, 0] 5 [5, 4, 3, 2, 1]
    = .ok [1, 2, 3, 4, 5] := by
  norm_num [qcut, quantile, quantileSorted, binOf, List.range_succ,
    List.insertionSort, List.orderedInsert, List.dedup_cons_of_mem,
    show Int.toNat 0 = 0 from rfl, show Int.toNat 1 = 1 from rfl,
    show Int.toNat 2 = 2 from rfl, show Int.toNat 3 = 3 from rfl,
    show Int.toNat 4 = 4 from rfl, List.takeWhile_cons]

lemma rank_flat5 : rankFirst [(1 : ℚ), 1, 1, 1, 1] = [1, 2, 3, 4, 5] := by
  norm_num [rankFirst, List.range_succ]

lemma qcut_rank5 : qcut [(1 : ℚ), 2, 3, 4, 5] 5 [1, 2, 3, 4, 5]
    = .ok [1, 2, 3, 4, 5] := by
  norm_num [qcut, quantile, quantileSorted, binOf, List.range_succ,
    List.insertionSort, List.orderedInsert, List.dedup_cons_of_mem,
    show Int.toNat 0 = 0 from rfl, show Int.toNat 1 = 1 from rfl,
    show Int.toNat 2 = 2 from rfl, show Int.toNat 3 = 3 from rfl,
    show Int.toNat 4 = 4 from rfl, List.takeWhile_cons]

lemma qcut_mon5 : qcut [(10 : ℚ), 20, 30, 40, 50] 5 [1, 2, 3, 4, 5]
    = .ok [1, 2, 3, 4, 5] := by
  norm_num [qcut, quantile, quantileSorted, binOf, List.range_succ,
    List.insertionSort, List.orderedInsert, List.dedup_cons_of_mem,
    show Int.toNat 0 = 0 from rfl, show Int.toNat 1 = 1 from rfl,
    show Int.toNat 2 = 2 from rfl, show Int.toNat 3 = 3 from rfl,
    show Int.toNat 4 = 4 from rfl, List.takeWhile_cons]

lemma calc_rfm_tblFiveDays :
    calculate_rfm_metrics tblFiveDays = .ok rfmFiveDays := by
  unfold calculate_rfm_metrics
  rw [if_neg (by simp [tblFiveDays, sampleTx])]
  simp only [] 
  rw [rfmBase_tblFiveDays]
  norm_num [qcut_rec5, rank_flat5, qcut_rank5, qcut_mon5, List.range_succ,
    rfmFiveDays]
  exact ⟨rfl, rfl, rfl, rfl, rfl⟩

/-- C7 witness: the theorem applied to the five-customer table, whose RFM
computation succeeds, at its first returned row. -/
theorem rfm_recency_days_nonneg_witness :
    0 ≤ (⟨"c1", 4, 1, 10, 1, 1, 1, "111"⟩ : RFMRow).recency
      ∧ (⟨"c1", 4, 1, 10, 1, 1, 1, "111"⟩ : RFMRow).recency
        = Int.ediv (currentDate tblFiveDays - customerMaxTs tblFiveDays
            (⟨"c1", 4, 1, 10, 1, 1, 1, "111"⟩ : RFMRow).customer_id) 86400 :=
  rfm_recency_days_nonneg tblFiveDays rfmFiveDays calc_rfm_tblFiveDays
    ⟨"c1", 4, 1, 10, 1, 1, 1, "111"⟩ (by rw [rfmFiveDays]; exact List.mem_cons_self _ _)

lemma except_ok_bind {α β : Type} (a : α) (f : α → Except String β) :
    (Except.ok a : Except String α) >>= f = f a := rfl

/-- C8: the single-transaction check never propagates an exception — on an
empty history it returns the explicit non-anomalous no-history verdict, and
on any other input its try-block body completes without an internal failure
(each division is protected by its positive-variance guard), so the result
is the body's verdict; had the body failed, the except clause converts the
failure into a non-anomalous verdict carrying an error string by
construction. -/
theorem realtime_never_raises (tx : Transaction) (hist : List Transaction)
    (thr : ℚ) :
    (hist = [] → detect_real_time_anomalies tx hist thr = noHistoryVerdict)
    ∧ ∃ v, rtBody tx hist thr = .ok v
        ∧ (hist ≠ [] → detect_real_time_anomalies tx hist thr = v) := by
  obtain ⟨v, hv⟩ : ∃ v, rtBody tx hist thr = .ok v := by
    cases hb : rtBody tx hist thr with
    | ok v => exact ⟨v, rfl⟩
    | error e =>
      by_cases hcat : hist.filter (fun t => t.category = tx.category) = []
      · simp [rtBody, guardedZSq_ok, hcat, except_ok_bind, pure, Except.pure]
          at hb
      · simp [rtBody, guardedZSq_ok, hcat, except_ok_bind, pure, Except.pure]
          at hb
  refine ⟨fun h => by subst h; rfl, v, hv, fun hne => ?_⟩
  unfold detect_real_time_anomalies
  rw [if_neg hne, hv]

/-- C8 witness: the theorem applied at an empty history (giving the
no-history verdict) and at a one-row history (whose body completes). -/
theorem realtime_never_raises_witness :
    detect_real_time_anomalies (sampleTx 0 5 1 "x") [] 2 = noHistoryVerdict
      ∧ ∃ v, rtBody (sampleTx 0 5 1 "x") [sampleTx 0 4 1 "y"] 2 = .ok v :=
  ⟨(realtime_never_raises (sampleTx 0 5 1 "x") [] 2).1 rfl,
   ((realtime_never_raises (sampleTx 0 5 1 "x") [sampleTx 0 4 1 "y"] 2).2).imp
     (fun _ hv => hv.1)⟩
